import Mathlib

/-!
Verification of the attestation verification engine in
`pkg/kritis/cryptolib/verifier.go`.

The Go code is embedded shallowly:

* byte slices become `List Nat`;
* the Go `map[string]PublicKey` becomes a function `String → Option PublicKey`
  (the only operations the source performs on it are insert-with-overwrite and
  lookup);
* Go `error` values become `Option String` holding the error message
  (`none` = Go `nil`), and functions returning `([]byte, error)` become
  functions returning `List Nat × Option String`;
* the four embedded per-capability interfaces of the `verifier` struct
  (`pkixVerifier`, `pgpVerifier`, `jwtVerifier`, `authenticatedAuthChecker`)
  become a `Backends` record passed alongside the data fields
  (`ImageDigest`, `PublicKeys`), which form the `verifier` structure.
-/

namespace Cryptolib

/-- Modelled from the spec: `KeyType` is the key-family tag (the file defining
it is not under `src/`; `verifier.go` only uses the three constants `Pkix`,
`Pgp`, `Jwt` and a `default` switch branch for any other value, and the spec
says "any other/unrecognized key type" exists).  It is therefore modelled as an
open scalar with three distinct named constants; the concrete numeric values
are immaterial, only their distinctness is used. -/
abbrev KeyType := Nat

/-- The PGP key family tag. -/
def Pgp : KeyType := 1

/-- The PKIX key family tag. -/
def Pkix : KeyType := 2

/-- The JWT key family tag. -/
def Jwt : KeyType := 3

/-- `PublicKey` from verifier.go: key family tag, raw key material, and the
externally asserted identifier. -/
structure PublicKey where
  KeyType : KeyType
  KeyData : List Nat
  ID : String
deriving DecidableEq

/-- `NewPublicKey` from verifier.go. -/
def NewPublicKey (keyType : KeyType) (keyData : List Nat) (keyID : String) : PublicKey :=
  ⟨keyType, keyData, keyID⟩

/-- Modelled from the spec: the `Attestation` struct is declared in a file not
under `src/`; the spec gives its exact shape
`(PublicKeyID: string, Signature: bytes, SerializedPayload: bytes)`, matching
the field accesses in verifier.go. -/
structure Attestation where
  PublicKeyID : String
  Signature : List Nat
  SerializedPayload : List Nat
deriving DecidableEq

/-- `authenticatedAttestation` from verifier.go: data extracted from an
attestation only after its signature has been verified. -/
structure authenticatedAttestation where
  ImageDigest : String
deriving DecidableEq

/-- The error message produced by `VerifyAttestation` when no public key with
the attestation's ID is found (`fmt.Errorf("no public key with ID %q found", ...)`;
`%q` is modelled as plain double quoting, exact for IDs without escapes). -/
def unknownKeyIDErr (id : String) : String :=
  "no public key with ID \"" ++ id ++ "\" found"

/-- The error message of the `default` switch branch in `VerifyAttestation`. -/
def unsupportedKeyModeErr : String := "signature uses an unsupported key mode"

/-- The fixed error message of `pkixVerifierImpl.verifyPkix`. -/
def pkixNotImplementedErr : String := "verify pkix not implemented"

/-- The fixed error message of `jwtVerifierImpl.verifyJwt`. -/
def jwtNotImplementedErr : String := "verify jwt not implemented"

/-- The error message of `attAuthChecker.checkAuthenticatedAttestation` on a
digest mismatch. -/
def trustMismatchErr : String := "invalid payload for authenticated attestation"

/-- Modelled from the spec: the `SignatureInvalid` error kind ("cryptographic
verification of signature failed") of a concrete cryptographic backend; no
concrete backend under `src/` produces it, so a representative fixed message is
used only to state distinguishability. -/
def signatureInvalidErr : String := "signature verification failed"

/-- The backend capabilities embedded in the `verifier` struct: the
`pkixVerifier`, `pgpVerifier` and `jwtVerifier` interfaces and the
`authenticatedAuthChecker` interface. -/
structure Backends where
  verifyPkix : List Nat → List Nat → List Nat → Option String
  verifyPgp : List Nat → List Nat → List Nat × Option String
  verifyJwt : List Nat → List Nat → List Nat × Option String
  checkAuthenticatedAttestation : authenticatedAttestation → String → Option String

/-- The data fields of the `verifier` struct from verifier.go (the four
backend interface fields are carried separately as `Backends`). -/
structure verifier where
  ImageDigest : String
  PublicKeys : String → Option PublicKey

/-- `indexPublicKeysByID` from verifier.go: fold the key list into a map,
inserting each key under its `ID`; a later key silently overwrites an earlier
one with the same `ID` (the source only emits a `glog.Warningf`, a log side
effect that is not modelled). -/
def indexPublicKeysByID (publicKeyset : List PublicKey) : String → Option PublicKey :=
  publicKeyset.foldl
    (fun keyMap publicKey =>
      fun id => if id = publicKey.ID then some publicKey else keyMap id)
    (fun _ => none)

/-- `pkixVerifierImpl.verifyPkix` from verifier.go: a stub that always fails
with a fixed "not implemented" error. -/
def pkixVerifierImpl : List Nat → List Nat → List Nat → Option String :=
  fun _signature _payload _publicKey => some pkixNotImplementedErr

/-- `jwtVerifierImpl.verifyJwt` from verifier.go: a stub that always returns an
empty payload and a fixed "not implemented" error. -/
def jwtVerifierImpl : List Nat → List Nat → List Nat × Option String :=
  fun _signature _publicKey => ([], some jwtNotImplementedErr)

/-- `formAuthenticatedAttestation` from verifier.go: returns the zero value
`authenticatedAttestation{}` (Go's zero value for a string field is `""`),
ignoring the payload argument entirely. -/
def formAuthenticatedAttestation (_payload : List Nat) : authenticatedAttestation :=
  ⟨""⟩

/-- `attAuthChecker.checkAuthenticatedAttestation` from verifier.go: error iff
the claim's digest differs from the expected digest. -/
def checkAuthenticatedAttestation (actual : authenticatedAttestation)
    (imageDigest : String) : Option String :=
  if actual.ImageDigest ≠ imageDigest then some trustMismatchErr else none

/-- The `switch publicKey.KeyType` block of `VerifyAttestation`, producing
either the error returned early (the backend error, or the `default` branch's
`UnsupportedKeyMode` error) or the payload variable as it stands after the
switch. For `Pkix` the payload is `att.SerializedPayload` itself; for `Pgp`
and `Jwt` it is the payload recovered by the backend. -/
def dispatchVerify (bk : Backends) (publicKey : PublicKey) (att : Attestation) :
    Except String (List Nat) :=
  if publicKey.KeyType = Pkix then
    match bk.verifyPkix att.Signature att.SerializedPayload publicKey.KeyData with
    | some e => .error e
    | none => .ok att.SerializedPayload
  else if publicKey.KeyType = Pgp then
    match bk.verifyPgp att.Signature publicKey.KeyData with
    | (_, some e) => .error e
    | (payload, none) => .ok payload
  else if publicKey.KeyType = Jwt then
    match bk.verifyJwt att.Signature publicKey.KeyData with
    | (_, some e) => .error e
    | (payload, none) => .ok payload
  else
    .error unsupportedKeyModeErr

/-- `VerifyAttestation` from verifier.go: look the key up by the attestation's
`PublicKeyID` (absent → error), dispatch on its type, then extract the payload
into an `authenticatedAttestation` and run the trust check against the
verifier's own `ImageDigest`. -/
def VerifyAttestation (v : verifier) (bk : Backends) (att : Attestation) : Option String :=
  match v.PublicKeys att.PublicKeyID with
  | none => some (unknownKeyIDErr att.PublicKeyID)
  | some publicKey =>
    match dispatchVerify bk publicKey att with
    | .error e => some e
    | .ok payload =>
      bk.checkAuthenticatedAttestation (formAuthenticatedAttestation payload) v.ImageDigest

/-- `VerifyAttestation` with the receiver state threaded explicitly: the Go
method takes `v *verifier` and could in principle assign to `v`'s fields, so
each exit path returns the receiver state alongside the result. The source
contains no assignment to any field of `v` on any path, so every branch
returns `v` unchanged. -/
def VerifyAttestationS (v : verifier) (bk : Backends) (att : Attestation) :
    Option String × verifier :=
  match v.PublicKeys att.PublicKeyID with
  | none => (some (unknownKeyIDErr att.PublicKeyID), v)
  | some publicKey =>
    match dispatchVerify bk publicKey att with
    | .error e => (some e, v)
    | .ok payload =>
      (bk.checkAuthenticatedAttestation (formAuthenticatedAttestation payload) v.ImageDigest, v)

/-- `NewVerifier` from verifier.go: builds the key index and returns the
verifier together with a `nil` error on every input. The Go function also
wires the four backend implementations (`pkixVerifierImpl`, `pgpVerifierImpl`,
`jwtVerifierImpl`, `attAuthChecker`) into the returned struct; backends are
modelled as the separate `Backends` record (`pgpVerifierImpl` is defined in a
file not under `src/`). -/
def NewVerifier (imageDigest : String) (publicKeySet : List PublicKey) :
    verifier × Option String :=
  (⟨imageDigest, indexPublicKeysByID publicKeySet⟩, none)

/-- Concrete backend assembly used only to instantiate the universally
quantified backend arguments of theorems at witness inputs. -/
def testBackends : Backends :=
  ⟨pkixVerifierImpl, fun _ _ => ([], some "pgp error"), jwtVerifierImpl,
    checkAuthenticatedAttestation⟩

/-- Lookup after the registry fold: the accumulator is consulted only when no
key of the list matches, and otherwise the last matching key (the first match
of the reversed list) wins. -/
theorem foldl_insert_lookup (ks : List PublicKey) (m : String → Option PublicKey)
    (id : String) :
    (ks.foldl
      (fun keyMap publicKey =>
        fun i => if i = publicKey.ID then some publicKey else keyMap i) m) id
      = (ks.reverse.find? (fun k => k.ID == id)).or (m id) := by
  induction ks generalizing m with
  | nil => simp
  | cons k ks ih =>
    rw [List.foldl_cons, ih, List.reverse_cons, List.find?_append, Option.or_assoc]
    congr 1
    by_cases h : k.ID = id
    · simp [h]
    · have hb : (k.ID == id) = false := by simp [h]
      have hid : ¬ id = k.ID := fun hc => h hc.symm
      simp [hb, hid]

/-- The registry maps `id` to the last key of the input list whose `ID` is
`id` (first match of the reversed list), and to nothing when no key matches. -/
theorem indexPublicKeysByID_eq_find_reverse (ks : List PublicKey) (id : String) :
    indexPublicKeysByID ks id = ks.reverse.find? (fun k => k.ID == id) := by
  rw [indexPublicKeysByID, foldl_insert_lookup]
  simp

/-- First match of the reversed list is the last element of the filtered
list. -/
theorem find_reverse_eq_getLast_filter (ks : List PublicKey) (p : PublicKey → Bool) :
    ks.reverse.find? p = (ks.filter p).getLast? := by
  induction ks using List.reverseRecOn with
  | nil => simp
  | append_singleton xs x ih =>
    have hrev : (xs ++ [x]).reverse = x :: xs.reverse := by simp
    rw [hrev, List.find?_cons, List.filter_append]
    by_cases h : p x
    · rw [h]
      have hfx : [x].filter p = [x] := by simp [h]
      rw [hfx, List.getLast?_concat]
    · have hb : p x = false := by simpa using h
      rw [hb]
      have hfx : [x].filter p = [] := by simp [hb]
      rw [hfx, List.append_nil, ih]

/-- Claim C2: if the attestation's `PublicKeyID` matches no key `ID` in the
key set, `VerifyAttestation` returns the `UnknownKeyID` error; the result is
the same for every backend assembly, so no algorithm verifier, extractor, or
trust check influences it. -/
theorem verify_unknown_key_id (digest : String) (ks : List PublicKey)
    (bk : Backends) (att : Attestation)
    (h : ∀ k ∈ ks, k.ID ≠ att.PublicKeyID) :
    VerifyAttestation ⟨digest, indexPublicKeysByID ks⟩ bk att
      = some (unknownKeyIDErr att.PublicKeyID) := by
  have hnone : indexPublicKeysByID ks att.PublicKeyID = none := by
    rw [indexPublicKeysByID_eq_find_reverse]
    refine List.find?_eq_none.mpr ?_
    intro k hk
    simp only [List.mem_reverse] at hk
    simp [h k hk]
  simp [VerifyAttestation, hnone]

/-- Witness for C2 at a concrete key set and attestation. -/
theorem verify_unknown_key_id_witness :
    VerifyAttestation ⟨"sha256:abc", indexPublicKeysByID [⟨Pkix, [], "k1"⟩]⟩
      testBackends ⟨"missing", [], []⟩ = some (unknownKeyIDErr "missing") :=
  verify_unknown_key_id "sha256:abc" [⟨Pkix, [], "k1"⟩] testBackends
    ⟨"missing", [], []⟩ (by decide)

/-- Claim C3: when two or more input keys share an `ID`, registry construction
still succeeds (`indexPublicKeysByID` is total) and the registry maps that
`ID` to exactly one key, namely the last key with that `ID` in input order. -/
theorem registry_duplicate_last_wins (ks : List PublicKey) (id : String)
    (hdup : 2 ≤ (ks.filter (fun k => k.ID == id)).length) :
    ∃ k : PublicKey,
      indexPublicKeysByID ks id = some k ∧
      (ks.filter (fun k' => k'.ID == id)).getLast? = some k := by
  have h := indexPublicKeysByID_eq_find_reverse ks id
  rw [find_reverse_eq_getLast_filter] at h
  have hne : ks.filter (fun k' => k'.ID == id) ≠ [] := by
    intro hnil
    rw [hnil] at hdup
    simp at hdup
  obtain ⟨k, hk⟩ := Option.isSome_iff_exists.mp (List.getLast?_isSome.mpr hne)
  exact ⟨k, by rw [h, hk], hk⟩

/-- Witness for C3: two keys share ID "k1"; the registry returns the second. -/
theorem registry_duplicate_last_wins_witness :
    ∃ k : PublicKey,
      indexPublicKeysByID [⟨Pgp, [], "k1"⟩, ⟨Pkix, [1], "k1"⟩] "k1" = some k ∧
      ([⟨Pgp, [], "k1"⟩, ⟨Pkix, [1], "k1"⟩].filter
        (fun k' => k'.ID == "k1")).getLast? = some k :=
  registry_duplicate_last_wins [⟨Pgp, [], "k1"⟩, ⟨Pkix, [1], "k1"⟩] "k1" (by decide)

/-- Claim C4: an attestation that resolves to a key whose `KeyType` is none of
`Pkix`, `Pgp`, `Jwt` makes `VerifyAttestation` return the `UnsupportedKeyMode`
error, for every signature, payload, and backend assembly. -/
theorem verify_unsupported_key_mode (v : verifier) (bk : Backends)
    (att : Attestation) (k : PublicKey)
    (hk : v.PublicKeys att.PublicKeyID = some k)
    (h1 : k.KeyType ≠ Pkix) (h2 : k.KeyType ≠ Pgp) (h3 : k.KeyType ≠ Jwt) :
    VerifyAttestation v bk att = some unsupportedKeyModeErr := by
  simp [VerifyAttestation, hk, dispatchVerify, h1, h2, h3]

/-- Witness for C4: a key of the unrecognized type `7`. -/
theorem verify_unsupported_key_mode_witness :
    VerifyAttestation ⟨"sha256:abc", indexPublicKeysByID [⟨7, [0], "k1"⟩]⟩
      testBackends ⟨"k1", [1], [2]⟩ = some unsupportedKeyModeErr :=
  verify_unsupported_key_mode ⟨"sha256:abc", indexPublicKeysByID [⟨7, [0], "k1"⟩]⟩
    testBackends ⟨"k1", [1], [2]⟩ ⟨7, [0], "k1"⟩ (by decide) (by decide) (by decide)
    (by decide)

/-- Concrete backend assembly whose PKIX verifier accepts every signature,
used to instantiate theorems whose hypotheses require a succeeding PKIX
backend. -/
def okPkixBackends : Backends :=
  ⟨fun _ _ _ => none, fun _ _ => ([], some "pgp error"), jwtVerifierImpl,
    checkAuthenticatedAttestation⟩

/-- Claim C5: for an attestation resolved to a `Pkix` key, when the PKIX
backend succeeds the dispatch step produces exactly `att.SerializedPayload`,
and `VerifyAttestation` hands exactly that payload to the trust extractor
`formAuthenticatedAttestation` before the trust check. -/
theorem pkix_payload_unchanged (v : verifier) (bk : Backends) (att : Attestation)
    (k : PublicKey) (hk : v.PublicKeys att.PublicKeyID = some k)
    (ht : k.KeyType = Pkix)
    (hs : bk.verifyPkix att.Signature att.SerializedPayload k.KeyData = none) :
    dispatchVerify bk k att = Except.ok att.SerializedPayload ∧
    VerifyAttestation v bk att
      = bk.checkAuthenticatedAttestation
          (formAuthenticatedAttestation att.SerializedPayload) v.ImageDigest := by
  have hd : dispatchVerify bk k att = Except.ok att.SerializedPayload := by
    simp [dispatchVerify, ht, hs]
  exact ⟨hd, by simp [VerifyAttestation, hk, hd]⟩

/-- Witness for C5 at a concrete key, attestation, and succeeding backend. -/
theorem pkix_payload_unchanged_witness :
    dispatchVerify okPkixBackends ⟨Pkix, [5], "k1"⟩ ⟨"k1", [9], [1, 2, 3]⟩
      = Except.ok [1, 2, 3] ∧
    VerifyAttestation ⟨"sha256:abc", indexPublicKeysByID [⟨Pkix, [5], "k1"⟩]⟩
      okPkixBackends ⟨"k1", [9], [1, 2, 3]⟩
      = okPkixBackends.checkAuthenticatedAttestation
          (formAuthenticatedAttestation [1, 2, 3]) "sha256:abc" :=
  pkix_payload_unchanged ⟨"sha256:abc", indexPublicKeysByID [⟨Pkix, [5], "k1"⟩]⟩
    okPkixBackends ⟨"k1", [9], [1, 2, 3]⟩ ⟨Pkix, [5], "k1"⟩ (by decide) rfl rfl

/-- Claim C6: the trust check `attAuthChecker.checkAuthenticatedAttestation`
succeeds exactly when the claim's `ImageDigest` is string-equal to the
expected digest, and every deviation (including an empty claim digest)
produces the `TrustMismatch` error. -/
theorem check_trust_mismatch (actual : authenticatedAttestation)
    (imageDigest : String) :
    (checkAuthenticatedAttestation actual imageDigest = none
      ↔ actual.ImageDigest = imageDigest) ∧
    (actual.ImageDigest ≠ imageDigest →
      checkAuthenticatedAttestation actual imageDigest = some trustMismatchErr) := by
  refine ⟨⟨fun h => ?_, fun h => by simp [checkAuthenticatedAttestation, h]⟩,
    fun h => by simp [checkAuthenticatedAttestation, h]⟩
  by_contra hne
  simp [checkAuthenticatedAttestation, hne] at h

/-- Witness for C6: an empty claim digest against a nonempty expected digest
is a `TrustMismatch`. -/
theorem check_trust_mismatch_witness :
    checkAuthenticatedAttestation ⟨""⟩ "sha256:abc" = some trustMismatchErr :=
  (check_trust_mismatch ⟨""⟩ "sha256:abc").2 (by decide)

/-- Claim C7: with the default JWT backend (`jwtVerifierImpl`, the stub wired
in by `NewVerifier`), an attestation resolved to a `Jwt` key makes
`VerifyAttestation` return the fixed `NotImplemented` error, which differs
from a `SignatureInvalid` cryptographic-failure error. -/
theorem jwt_not_implemented (v : verifier) (bk : Backends) (att : Attestation)
    (k : PublicKey) (hk : v.PublicKeys att.PublicKeyID = some k)
    (ht : k.KeyType = Jwt) (hjwt : bk.verifyJwt = jwtVerifierImpl) :
    VerifyAttestation v bk att = some jwtNotImplementedErr ∧
    jwtNotImplementedErr ≠ signatureInvalidErr := by
  refine ⟨?_, by decide⟩
  simp [VerifyAttestation, hk, dispatchVerify, ht, hjwt, jwtVerifierImpl,
    Jwt, Pkix, Pgp]

/-- Witness for C7 at a concrete key and attestation. -/
theorem jwt_not_implemented_witness :
    VerifyAttestation ⟨"sha256:abc", indexPublicKeysByID [⟨Jwt, [8], "k1"⟩]⟩
      testBackends ⟨"k1", [9], [1]⟩ = some jwtNotImplementedErr ∧
    jwtNotImplementedErr ≠ signatureInvalidErr :=
  jwt_not_implemented ⟨"sha256:abc", indexPublicKeysByID [⟨Jwt, [8], "k1"⟩]⟩
    testBackends ⟨"k1", [9], [1]⟩ ⟨Jwt, [8], "k1"⟩ (by decide) rfl rfl

/-- Claim C8: verification is deterministic and mutates no verifier state:
the state-threaded run returns the receiver unchanged (in particular its
`ImageDigest` and `PublicKeys`), a second run on the returned state yields
the identical result, and the result agrees with `VerifyAttestation`. -/
theorem verify_idempotent (v : verifier) (bk : Backends) (att : Attestation) :
    (VerifyAttestationS v bk att).2 = v ∧
    (VerifyAttestationS v bk att).2.ImageDigest = v.ImageDigest ∧
    (VerifyAttestationS v bk att).2.PublicKeys = v.PublicKeys ∧
    VerifyAttestationS (VerifyAttestationS v bk att).2 bk att
      = VerifyAttestationS v bk att ∧
    (VerifyAttestationS v bk att).1 = VerifyAttestation v bk att := by
  have h1 : VerifyAttestationS v bk att = (VerifyAttestation v bk att, v) := by
    unfold VerifyAttestationS VerifyAttestation
    split
    · rfl
    · split <;> rfl
  rw [h1]
  exact ⟨rfl, rfl, rfl, by rw [h1], rfl⟩

/-- Claim C9: `NewVerifier` returns a verifier and a `nil` error on every
image digest and every key sequence (empty or with duplicate IDs included);
construction never fails, and the returned verifier carries the supplied
digest and the index of the supplied keys. -/
theorem new_verifier_never_fails (imageDigest : String)
    (publicKeySet : List PublicKey) :
    (NewVerifier imageDigest publicKeySet).2 = none ∧
    (NewVerifier imageDigest publicKeySet).1.ImageDigest = imageDigest ∧
    (NewVerifier imageDigest publicKeySet).1.PublicKeys
      = indexPublicKeysByID publicKeySet :=
  ⟨rfl, rfl, rfl⟩

/-- Claim C10: `formAuthenticatedAttestation` ignores its payload and returns
the zero-valued claim, whose `ImageDigest` is `""`; consequently, whenever the
key resolves, the dispatched algorithm verifier succeeds, and the trust check
is the real `attAuthChecker` one, `VerifyAttestation` succeeds exactly when
the verifier's expected `ImageDigest` is the empty string. -/
theorem form_authenticated_attestation_always_empty (v : verifier)
    (bk : Backends) (att : Attestation) (k : PublicKey) (payload : List Nat)
    (hk : v.PublicKeys att.PublicKeyID = some k)
    (hch : bk.checkAuthenticatedAttestation = checkAuthenticatedAttestation)
    (hd : dispatchVerify bk k att = Except.ok payload) :
    (∀ p : List Nat, (formAuthenticatedAttestation p).ImageDigest = "") ∧
    (VerifyAttestation v bk att = none ↔ v.ImageDigest = "") := by
  refine ⟨fun _ => rfl, ?_⟩
  have hv : VerifyAttestation v bk att
      = checkAuthenticatedAttestation ⟨""⟩ v.ImageDigest := by
    simp [VerifyAttestation, hk, hd, hch, formAuthenticatedAttestation]
  rw [hv, checkAuthenticatedAttestation]
  by_cases he : v.ImageDigest = ""
  · simp [he]
  · have hne : ¬ ("" = v.ImageDigest) := fun hc => he hc.symm
    simp [hne, he]

/-- Witness for C10: with an empty expected digest the verification above a
succeeding PKIX backend succeeds. -/
theorem form_authenticated_attestation_always_empty_witness :
    (formAuthenticatedAttestation [7]).ImageDigest = "" ∧
    (VerifyAttestation ⟨"", indexPublicKeysByID [⟨Pkix, [5], "k1"⟩]⟩
      okPkixBackends ⟨"k1", [9], [1, 2, 3]⟩ = none ↔ ("" : String) = "") :=
  have h := form_authenticated_attestation_always_empty
    ⟨"", indexPublicKeysByID [⟨Pkix, [5], "k1"⟩]⟩ okPkixBackends
    ⟨"k1", [9], [1, 2, 3]⟩ ⟨Pkix, [5], "k1"⟩ [1, 2, 3] (by decide) rfl rfl
  ⟨h.1 [7], h.2⟩

/-- Claim C1, evaluated on the code at the spec's end-to-end scenario A: one
PKIX key with ID "k1", an attestation referencing "k1" whose signature the
PKIX backend accepts, a `SerializedPayload` holding the bytes of
"sha256:abc", and expected digest "sha256:abc". The claim expects success
(`none`); the code instead returns the `TrustMismatch` error, because
`formAuthenticatedAttestation` discards the verified payload and produces a
claim with an empty `ImageDigest`. -/
theorem scenario_a_returns_trust_mismatch :
    VerifyAttestation
      ⟨"sha256:abc", indexPublicKeysByID [⟨Pkix, [4, 5, 6], "k1"⟩]⟩
      okPkixBackends
      ⟨"k1", [7, 7, 7], [115, 104, 97, 50, 53, 54, 58, 97, 98, 99]⟩
      = some trustMismatchErr ∧
    some trustMismatchErr ≠ (none : Option String) :=
  ⟨by decide, by decide⟩

end Cryptolib
